import Mathlib

/-!
Verification development for the SOLPILL repository.

The repository is a React landing page in several variants
(src/src/PillCoinLanding.jsx and src/unnamed/part_000).  The logic that the
claims concern is embedded shallowly here:

* the helpers `lamportsToSol` and `computeScale`;
* the on-chain feed poller of the wallet-enabled variant (`poll` inside
  `MainPage`): transaction processing, threshold test, cursor handling,
  error handling and rescheduling;
* the timer-driven multiplicative growth simulators (grow/shrink steps with
  clamping) of the two simulation-only variants, and `randomSolAmount`.

JavaScript numbers are modelled as exact rationals (`ℚ`) where the code only
adds, subtracts, multiplies, divides and compares, and as reals (`ℝ`) where
the code calls `Math.log` / `Math.exp` / `Math.cos` / `Math.sqrt`.
-/

namespace SolPill

/-! ## Helpers (PillCoinLanding.jsx lines 50-52) -/

/-- Constant from the source: `const LAMPORTS_PER_SOL = 1_000_000_000`. -/
def LAMPORTS_PER_SOL : ℚ := 1000000000

/-- Helper from the source: `const lamportsToSol = (lamports) => lamports / LAMPORTS_PER_SOL`. -/
def lamportsToSol (lamports : ℚ) : ℚ := lamports / LAMPORTS_PER_SOL

/-- Helper from the source: `const computeScale = (feeds) => 1 + Math.log(1 + Math.max(0, feeds)) * 0.6`
(identical in PillCoinLanding.jsx line 52 and part_000 lines 41-42).
`Math.log` forces the real-number model. -/
noncomputable def computeScale (feeds : ℝ) : ℝ :=
  1 + Real.log (1 + max 0 feeds) * 0.6

/-- Default feed threshold: `FEED_THRESHOLD` falls back to `0.5` SOL when the
environment provides nothing (PillCoinLanding.jsx lines 41-45). -/
def FEED_THRESHOLD_DEFAULT : ℚ := 0.5

/-! ## Transaction data model (the fields `poll` reads from the result of `getTransaction`: `tx.meta.preBalances/postBalances`, `tx.transaction.message.accountKeys`). -/

/-- Balance metadata of a fetched transaction; lamport balances are integers. -/
structure TxMeta where
  preBalances : List ℤ
  postBalances : List ℤ
deriving DecidableEq, Repr

/-- The transaction message: the list of account keys, already stringified
(the code compares `k.toString()` with `targetPubkey.toString()`). -/
structure TxMessage where
  accountKeys : List String
deriving DecidableEq, Repr

/-- A transaction as returned by `getTransaction`; `meta` and `message` may be
absent (`tx?.meta`, `tx?.transaction?.message`, checked by `if (!meta || !message) continue`). -/
structure TxData where
  meta : Option TxMeta
  message : Option TxMessage
deriving DecidableEq, Repr

/-- Loop body of `poll` for one transaction (PillCoinLanding.jsx lines 167-180):
returns `true` exactly when the code executes `setFeeds((prev) => prev + 1)`.
`accountKeys.indexOf(target)` is `findIdx?`; a missing balance entry at `idx`
gives `undefined` in JS, so the delta is `NaN` and the `>=` test is false,
hence the `none` branches return `false`. -/
def txEmitsFeed (target : String) (threshold : ℚ) (tx : TxData) : Bool :=
  match tx.meta, tx.message with
  | some meta, some message =>
    match message.accountKeys.findIdx? (fun k => k = target) with
    | none => false
    | some idx =>
      match meta.preBalances[idx]?, meta.postBalances[idx]? with
      | some pre, some post =>
          decide (threshold ≤ lamportsToSol ((post : ℚ) - (pre : ℚ)))
      | _, _ => false
  | _, _ => false

/-! ## Poller state (`MainPage` component state: `feeds`, `lastFeedAt`, and the
poll-local `cursor`). Timestamps are abstract naturals: the ISO string from
`new Date().toISOString()` is only recorded, never computed with. -/

/-- The state the poller can read or write: the closed-over `cursor`, the
`feeds` counter and the `lastFeedAt` timestamp. -/
structure PollState where
  cursor : Option String
  feeds : ℕ
  lastFeedAt : Option ℕ
deriving DecidableEq, Repr

/-- Initial component state: `useState(0)` for feeds, `useState(null)` for
`lastFeedAt`, `let cursor = null` (lines 132-134, 158). -/
def initState : PollState :=
  { cursor := none, feeds := 0, lastFeedAt := none }

/-- Effect of processing one transaction on the component state at time `now`:
`setFeeds(prev + 1)` and `setLastFeedAt(now)` exactly when the threshold test
passes, otherwise nothing. -/
def processTx (target : String) (threshold : ℚ) (now : ℕ)
    (st : PollState) (tx : TxData) : PollState :=
  if txEmitsFeed target threshold tx then
    { st with feeds := st.feeds + 1, lastFeedAt := some now }
  else
    st

/-! ## One poll iteration (PillCoinLanding.jsx lines 161-190)

The two remote calls (`getSignaturesForAddress`, `getTransaction`) are passed
in as oracles returning `Except`: a `.error` result models the awaited promise
rejecting, i.e. the call throwing inside the `try` block. -/

/-- An entry of the signature list returned by `getSignaturesForAddress`
(only the `signature` field is read). -/
structure SigEntry where
  signature : String
deriving DecidableEq, Repr

/-- How the `for (const s of sigs.reverse())` loop ends. -/
inductive LoopExit where
  /-- The loop ran to completion. -/
  | normal : LoopExit
  /-- The call to `getTransaction` threw; the exception aborts the loop and is caught. -/
  | errored : String → LoopExit
  /-- The guard `if (!isMounted) return` fired before a `setFeeds`. -/
  | returned : LoopExit
deriving DecidableEq, Repr

/-- The `for (const s of sigs.reverse())` body, iterated over the (already
reversed) signature list.  A throwing `getTransaction` ends the loop with the
state accumulated so far (the exception is caught by the surrounding `try`);
an unmounted component returns before mutating state. -/
def processLoop (fetchTx : String → Except String TxData)
    (target : String) (threshold : ℚ) (now : ℕ) (mounted : Bool)
    (st : PollState) : List SigEntry → PollState × LoopExit
  | [] => (st, .normal)
  | s :: rest =>
    match fetchTx s.signature with
    | .error e => (st, .errored e)
    | .ok tx =>
      if txEmitsFeed target threshold tx then
        if mounted then
          processLoop fetchTx target threshold now mounted
            { st with feeds := st.feeds + 1, lastFeedAt := some now } rest
        else (st, .returned)
      else processLoop fetchTx target threshold now mounted st rest

/-- Result of one call of `poll`: the state afterwards, the delay until the
rescheduled call (`none` when no `setTimeout(poll, 5000)` happens), and the
messages written by `console.warn` (dev mode only). -/
structure PollOutcome where
  state : PollState
  delayMs : Option ℕ
  logs : List String
deriving DecidableEq, Repr

/-- Reschedule of line 186: `if (isMounted) setTimeout(poll, 5000)`. -/
def reschedule (mounted : Bool) : Option ℕ :=
  if mounted then some 5000 else none

/-- Log of line 184: in dev mode the caught error is passed to `console.warn`. -/
def devLog (isDev : Bool) (e : String) : List String :=
  if isDev then [e] else []

/-- One full iteration of `poll` (lines 161-187): fetch the signature list
(`before: cursor` when a cursor exists), and if nonempty set the cursor to
`sigs[0].signature` and run the transaction loop over `sigs.reverse()`; any
exception is caught, logged in dev mode, and the iteration reschedules itself
after 5000 ms while mounted. -/
def pollIter (fetchSigs : Option String → Except String (List SigEntry))
    (fetchTx : String → Except String TxData)
    (target : String) (threshold : ℚ) (now : ℕ)
    (isDev : Bool) (mounted : Bool) (st : PollState) : PollOutcome :=
  match fetchSigs st.cursor with
  | .error e => { state := st, delayMs := reschedule mounted, logs := devLog isDev e }
  | .ok [] => { state := st, delayMs := reschedule mounted, logs := [] }
  | .ok (s0 :: rest) =>
    match processLoop fetchTx target threshold now mounted
        { st with cursor := some s0.signature } ((s0 :: rest).reverse) with
    | (st', .normal) => { state := st', delayMs := reschedule mounted, logs := [] }
    | (st', .errored e) => { state := st', delayMs := reschedule mounted, logs := devLog isDev e }
    | (st', .returned) => { state := st', delayMs := none, logs := [] }

/-! ## A concrete ledger to run the poller against

Modelled from the spec: the remote ledger query of §6 — "list recent
signatures for address X, optionally before cursor Y, limit N" and "fetch full
transaction by signature" — is third-party RPC behaviour, not code under
`src/`.  The ledger is the list of the transactions of the address, most recent
first; with a cursor the query returns the signatures positioned before
(older than) the cursor signature, up to the limit. -/

/-- The signatures positioned after (older than) `cursor` in a newest-first
signature list; empty when the cursor does not occur. -/
def sigsBefore (cursor : String) : List SigEntry → List SigEntry
  | [] => []
  | s :: rest => if s.signature = cursor then rest else sigsBefore cursor rest

/-- Signature listing of a ledger (newest first): without a cursor, the most
recent `limit` signatures; with cursor `c`, the `limit` signatures that come
after `c` in the newest-first order, i.e. the ones older than `c`. -/
def ledgerSigs (ledger : List (String × TxData)) (cursor : Option String)
    (limit : ℕ) : List SigEntry :=
  let sigs := ledger.map (fun p => SigEntry.mk p.1)
  match cursor with
  | none => sigs.take limit
  | some c => (sigsBefore c sigs).take limit

/-- Transaction lookup in a ledger by signature. -/
def ledgerFetchTx : List (String × TxData) → String → Except String TxData
  | [], _ => .error "not found"
  | p :: rest, sig => if p.1 = sig then .ok p.2 else ledgerFetchTx rest sig

/-- One poll round against a concrete ledger with no transport failures,
using the literal arguments of the code: limit 20, dev mode off, mounted. -/
def pollRound (ledger : List (String × TxData)) (target : String)
    (threshold : ℚ) (now : ℕ) (st : PollState) : PollState :=
  (pollIter (fun c => .ok (ledgerSigs ledger c 20)) (ledgerFetchTx ledger)
    target threshold now false true st).state

/-! ## Startup guards (PillCoinLanding.jsx lines 139-159)

The connection-init effect catches the `new Connection(RPC_URL)` constructor
throwing and stores the message in `connError`; the polling effect returns
immediately when the connection is missing or the target address is falsy or
still the placeholder. -/

/-- The connection object; only its existence matters to the guards. -/
structure Connection where
  rpcUrl : String
deriving DecidableEq, Repr

/-- The connection-init effect (lines 139-145): on success the connection is
stored, on failure the error message is stored in `connError` and the
connection stays `null`.  Returns `(connection, connError)`. -/
def initConnection (result : Except String Connection) :
    Option Connection × Option String :=
  match result with
  | .ok c => (some c, none)
  | .error e => (none, some e)

/-- The guard at the top of the polling effect (lines 154-155):
the effect returns early when the connection is null, and when the target
address is falsy (the empty string) or equals the placeholder string. -/
def pollerStarts (connection : Option Connection) (target : String) : Bool :=
  connection.isSome && !(target = "" || target = "REPLACE_WITH_TARGET_ADDRESS")

/-- The polling effect as a whole: when the guard fails, the effect returns
before defining or calling `poll`, so the state is untouched and zero remote
calls are made.  `pollFn` stands for running the poll loop; it returns the
final state and how many remote calls it made. -/
def feedPollerEffect (connection : Option Connection) (target : String)
    (pollFn : PollState → PollState × ℕ) (st : PollState) : PollState × ℕ :=
  if pollerStarts connection target then pollFn st else (st, 0)

/-! ## Session-level feed counter (`feeds` in `MainPage`)

The only writers of `feeds` are the poller loop body (`setFeeds(prev + 1)`
behind the threshold test, lines 176-180) and the `simulateFeed` callback
(lines 193-196 and part_000 lines 157-160). -/

/-- An operation touching the feed counter. -/
inductive FeedOp where
  /-- The poller processed transaction `tx`. -/
  | poll : TxData → FeedOp
  /-- The user clicked "Simulate Feed" (`setFeeds(prev + 1)`). -/
  | simulate : FeedOp
deriving Repr

/-- Effect of one feed operation on the component state at time `now`. -/
def applyFeedOp (target : String) (threshold : ℚ) (now : ℕ)
    (st : PollState) : FeedOp → PollState
  | .poll tx => processTx target threshold now st tx
  | .simulate => { st with feeds := st.feeds + 1, lastFeedAt := some now }

/-! ## The multiplicative growth simulators

Two simulation-only variants share the shape
`setScale((s) => Math.min(s * GROW_FACTOR, MAX_SCALE))` on the fast interval
and `setScale((s) => Math.max(BASE_SCALE, s * SHRINK_FACTOR))` on the slow
one.  All constants are decimal literals, so `ℚ` is exact. -/

/-- The four constants of a simulator variant. -/
structure SimConfig where
  baseScale : ℚ
  growFactor : ℚ
  shrinkFactor : ℚ
  maxScale : ℚ
deriving DecidableEq, Repr

/-- Second variant of PillCoinLanding.jsx (lines 246-249):
`BASE_SCALE = 1`, `GROW_FACTOR = 1.06`, `SHRINK_FACTOR = 0.96`, `MAX_SCALE = 6`. -/
def simpleConfig : SimConfig :=
  { baseScale := 1, growFactor := 1.06, shrinkFactor := 0.96, maxScale := 6 }

/-- Third variant of PillCoinLanding.jsx (lines 332-337):
`BASE_SCALE = 0.6`, `GROW_FACTOR = 1.08`, `SHRINK_FACTOR = 0.97`, `MAX_SCALE = 4`,
grow every 2000 ms, shrink every 8000 ms. -/
def simulatedConfig : SimConfig :=
  { baseScale := 0.6, growFactor := 1.08, shrinkFactor := 0.97, maxScale := 4 }

/-- Grow tick: `setScale((s) => Math.min(s * GROW_FACTOR, MAX_SCALE))`. -/
def growStep (c : SimConfig) (s : ℚ) : ℚ := min (s * c.growFactor) c.maxScale

/-- Shrink tick: `setScale((s) => Math.max(BASE_SCALE, s * SHRINK_FACTOR))`. -/
def shrinkStep (c : SimConfig) (s : ℚ) : ℚ := max c.baseScale (s * c.shrinkFactor)

/-- A timer event of the simulator. -/
inductive SimStep where
  | grow : SimStep
  | shrink : SimStep
deriving DecidableEq, Repr

/-- Apply one timer event. -/
def applySimStep (c : SimConfig) (s : ℚ) : SimStep → ℚ
  | .grow => growStep c s
  | .shrink => shrinkStep c s

/-- Run the simulator from `useState(BASE_SCALE)` through an arbitrary
interleaving of grow and shrink timer events. -/
def runSim (c : SimConfig) (steps : List SimStep) : ℚ :=
  steps.foldl (applySimStep c) c.baseScale

/-- The generator `randomSolAmount` (PillCoinLanding.jsx lines 339-345) on the two
`Math.random()` draws `u1` and `u2`:
`mu = Math.log(0.25)`, `sigma = 0.8`,
`n = Math.sqrt(-2 * Math.log(u1)) * Math.cos(2 * Math.PI * u2)`,
`val = Math.exp(mu + sigma * n)`, result `Math.min(2.5, Math.max(0.05, val))`. -/
noncomputable def randomSolAmount (u1 u2 : ℝ) : ℝ :=
  let mu := Real.log 0.25
  let sigma : ℝ := 0.8
  let n := Real.sqrt (-2 * Real.log u1) * Real.cos (2 * Real.pi * u2)
  let val := Real.exp (mu + sigma * n)
  min 2.5 (max 0.05 val)

/-! ## Concrete test data -/

/-- A transaction crediting the target key "T" with exactly 500,000,000
lamports (0.5 SOL). -/
def tx500 : TxData :=
  { meta := some { preBalances := [0], postBalances := [500000000] },
    message := some { accountKeys := ["T"] } }

/-- A transaction crediting the target key "T" with 400,000,000 lamports
(0.4 SOL). -/
def tx400 : TxData :=
  { meta := some { preBalances := [0], postBalances := [400000000] },
    message := some { accountKeys := ["T"] } }

/-- A transaction crediting the target key "T" with 1 SOL (above threshold). -/
def feedTx : TxData :=
  { meta := some { preBalances := [0], postBalances := [1000000000] },
    message := some { accountKeys := ["T"] } }

/-- A fixed two-transaction ledger, newest first: signature "s1" is the most
recent transaction, "s2" the older one; both feed 1 SOL to "T". -/
def twoTxLedger : List (String × TxData) := [("s1", feedTx), ("s2", feedTx)]

/-! ## Theorems -/

/-- C2: when the target address appears at index `idx` of the account keys and
the balance arrays have entries there, one poll step increments the feed
counter by 1 and records a timestamp if and only if
`(postBalances[idx] - preBalances[idx]) / 1e9` is at least the threshold;
with the default threshold 0.5 SOL a delta of exactly 500,000,000 lamports
counts and 400,000,000 lamports does not. -/
theorem processTx_threshold_iff (tx : TxData) (meta : TxMeta) (message : TxMessage)
    (target : String) (threshold : ℚ) (now : ℕ) (st : PollState)
    (idx : ℕ) (pre post : ℤ)
    (hm : tx.meta = some meta) (hmsg : tx.message = some message)
    (hidx : message.accountKeys.findIdx? (fun k => k = target) = some idx)
    (hpre : meta.preBalances[idx]? = some pre)
    (hpost : meta.postBalances[idx]? = some post) :
    (((processTx target threshold now st tx).feeds = st.feeds + 1 ∧
      (processTx target threshold now st tx).lastFeedAt = some now) ↔
      threshold ≤ lamportsToSol ((post : ℚ) - (pre : ℚ))) ∧
    txEmitsFeed "T" FEED_THRESHOLD_DEFAULT tx500 = true ∧
    txEmitsFeed "T" FEED_THRESHOLD_DEFAULT tx400 = false := by
  have he : txEmitsFeed target threshold tx = true ↔
      threshold ≤ lamportsToSol ((post : ℚ) - (pre : ℚ)) := by
    simp [txEmitsFeed, hm, hmsg, hidx, hpre, hpost]
  refine ⟨?_, ?_, ?_⟩
  · by_cases h : threshold ≤ lamportsToSol ((post : ℚ) - (pre : ℚ))
    · have ht : txEmitsFeed target threshold tx = true := he.mpr h
      simp [processTx, ht, h]
    · have hf : txEmitsFeed target threshold tx = false := by
        cases hb : txEmitsFeed target threshold tx
        · rfl
        · exact absurd (he.mp hb) h
      simp [processTx, hf, h]
  · simp [txEmitsFeed, tx500, FEED_THRESHOLD_DEFAULT, lamportsToSol, LAMPORTS_PER_SOL]
    norm_num
  · simp [txEmitsFeed, tx400, FEED_THRESHOLD_DEFAULT, lamportsToSol, LAMPORTS_PER_SOL]
    norm_num

/-- Witness for `processTx_threshold_iff`, instantiated at `tx500` itself. -/
theorem processTx_threshold_iff_witness :
    tx500.meta = some { preBalances := [0], postBalances := [500000000] } ∧
    tx500.message = some { accountKeys := ["T"] } ∧
    (TxMessage.accountKeys { accountKeys := ["T"] }).findIdx? (fun k => k = "T") = some 0 ∧
    (((processTx "T" FEED_THRESHOLD_DEFAULT 7 initState tx500).feeds = initState.feeds + 1 ∧
      (processTx "T" FEED_THRESHOLD_DEFAULT 7 initState tx500).lastFeedAt = some 7) ↔
      FEED_THRESHOLD_DEFAULT ≤ lamportsToSol (((500000000 : ℤ) : ℚ) - ((0 : ℤ) : ℚ))) :=
  ⟨rfl, rfl, by decide,
    (processTx_threshold_iff tx500 { preBalances := [0], postBalances := [500000000] }
      { accountKeys := ["T"] } "T" FEED_THRESHOLD_DEFAULT 7 initState 0 0 500000000
      rfl rfl (by decide) (by simp) (by simp)).1⟩

/-- C10: `computeScale` is total on the reals and returns at least 1 on every
input; any input at most 0 is clamped by `Math.max(0, feeds)`, so the result
is exactly 1 there. -/
theorem computeScale_ge_one_and_clamped (x y : ℝ) (hy : y ≤ 0) :
    1 ≤ computeScale x ∧ computeScale y = 1 := by
  constructor
  · have h1 : (1 : ℝ) ≤ 1 + max 0 x := le_add_of_nonneg_right (le_max_left 0 x)
    have h2 : 0 ≤ Real.log (1 + max 0 x) := Real.log_nonneg h1
    have h3 : 0 ≤ Real.log (1 + max 0 x) * 0.6 := by nlinarith
    unfold computeScale
    linarith
  · unfold computeScale
    rw [max_eq_left hy]
    simp

/-- Witness for `computeScale_ge_one_and_clamped` at `x = 5`, `y = -3`. -/
theorem computeScale_ge_one_and_clamped_witness :
    (-3 : ℝ) ≤ 0 ∧ (1 ≤ computeScale 5 ∧ computeScale (-3) = 1) :=
  ⟨by norm_num, computeScale_ge_one_and_clamped 5 (-3) (by norm_num)⟩

/-- C4: `computeScale 0 = 1`, `computeScale` is strictly increasing on
nonnegative feed counts, and it is unbounded above. -/
theorem computeScale_base_strictMono_unbounded (x y M : ℝ)
    (hx : 0 ≤ x) (hxy : x < y) :
    computeScale 0 = 1 ∧ computeScale x < computeScale y ∧
    ∃ z, M < computeScale z := by
  refine ⟨?_, ?_, ?_⟩
  · unfold computeScale
    simp
  · have hy : 0 ≤ y := le_trans hx hxy.le
    have hmx : max 0 x = x := max_eq_right hx
    have hmy : max 0 y = y := max_eq_right hy
    have hlog : Real.log (1 + x) < Real.log (1 + y) :=
      Real.log_lt_log (by linarith) (by linarith)
    unfold computeScale
    rw [hmx, hmy]
    nlinarith
  · refine ⟨Real.exp (2 * |M| + 2), ?_⟩
    have hz : (0 : ℝ) < Real.exp (2 * |M| + 2) := Real.exp_pos _
    have hmz : max 0 (Real.exp (2 * |M| + 2)) = Real.exp (2 * |M| + 2) :=
      max_eq_right hz.le
    have hlog : Real.log (Real.exp (2 * |M| + 2)) <
        Real.log (1 + Real.exp (2 * |M| + 2)) :=
      Real.log_lt_log hz (by linarith)
    have hexp : Real.log (Real.exp (2 * |M| + 2)) = 2 * |M| + 2 :=
      Real.log_exp _
    have habs : M ≤ |M| := le_abs_self M
    have habs0 : 0 ≤ |M| := abs_nonneg M
    unfold computeScale
    rw [hmz]
    nlinarith

/-- Witness for `computeScale_base_strictMono_unbounded` at `x = 0`, `y = 1`,
`M = 42`. -/
theorem computeScale_base_strictMono_unbounded_witness :
    (0 : ℝ) ≤ 0 ∧ (0 : ℝ) < 1 ∧
    (computeScale 0 = 1 ∧ computeScale 0 < computeScale 1 ∧
      ∃ z, (42 : ℝ) < computeScale z) :=
  ⟨le_refl 0, by norm_num,
    computeScale_base_strictMono_unbounded 0 1 42 (le_refl 0) (by norm_num)⟩

/-- C5: for every pair of uniform draws, `randomSolAmount` lands in the closed
interval [0.05, 2.5]: the final `Math.min(2.5, Math.max(0.05, val))` clamp
bounds the exponentiated Box-Muller variate on both sides (in the real-number
model the value is a finite real for any draws). -/
theorem randomSolAmount_mem_Icc (u1 u2 : ℝ) :
    randomSolAmount u1 u2 ∈ Set.Icc (0.05 : ℝ) 2.5 := by
  unfold randomSolAmount
  refine Set.mem_Icc.mpr ⟨?_, ?_⟩
  · exact le_min (by norm_num) (le_max_left _ _)
  · exact min_le_left _ _

/-- One simulator tick keeps the scale between the base and the cap, for any
configuration with nonnegative base below the cap, growth factor at least 1
and shrink factor in [0, 1]. -/
theorem simStep_bounds (c : SimConfig) (hb : 0 ≤ c.baseScale)
    (hbm : c.baseScale ≤ c.maxScale) (hg : 1 ≤ c.growFactor)
    (_hs0 : 0 ≤ c.shrinkFactor) (hs1 : c.shrinkFactor ≤ 1)
    (s : ℚ) (h1 : c.baseScale ≤ s) (h2 : s ≤ c.maxScale) (step : SimStep) :
    c.baseScale ≤ applySimStep c s step ∧ applySimStep c s step ≤ c.maxScale := by
  have hs : (0 : ℚ) ≤ s := le_trans hb h1
  cases step with
  | grow =>
    refine ⟨le_min (le_trans h1 (le_mul_of_one_le_right hs hg)) hbm, min_le_right _ _⟩
  | shrink =>
    refine ⟨le_max_left _ _, max_le hbm (le_trans (mul_le_of_le_one_right hs hs1) h2)⟩

/-- Any run of simulator ticks from a state in bounds stays in bounds. -/
theorem simRun_bounds (c : SimConfig) (hb : 0 ≤ c.baseScale)
    (hbm : c.baseScale ≤ c.maxScale) (hg : 1 ≤ c.growFactor)
    (hs0 : 0 ≤ c.shrinkFactor) (hs1 : c.shrinkFactor ≤ 1) :
    ∀ (steps : List SimStep) (s : ℚ), c.baseScale ≤ s → s ≤ c.maxScale →
      c.baseScale ≤ steps.foldl (applySimStep c) s ∧
        steps.foldl (applySimStep c) s ≤ c.maxScale := by
  intro steps
  induction steps with
  | nil => intro s h1 h2; exact ⟨h1, h2⟩
  | cons step rest ih =>
    intro s h1 h2
    have h := simStep_bounds c hb hbm hg hs0 hs1 s h1 h2 step
    exact ih _ h.1 h.2

/-- C3: every interleaving of grow and shrink ticks starting from `BASE_SCALE`
stays within `[BASE_SCALE, MAX_SCALE]`, in both simulator variants. -/
theorem runSim_bounded (steps : List SimStep) :
    (simulatedConfig.baseScale ≤ runSim simulatedConfig steps ∧
      runSim simulatedConfig steps ≤ simulatedConfig.maxScale) ∧
    (simpleConfig.baseScale ≤ runSim simpleConfig steps ∧
      runSim simpleConfig steps ≤ simpleConfig.maxScale) := by
  constructor
  · exact simRun_bounds simulatedConfig (by norm_num [simulatedConfig])
      (by norm_num [simulatedConfig]) (by norm_num [simulatedConfig])
      (by norm_num [simulatedConfig]) (by norm_num [simulatedConfig])
      steps simulatedConfig.baseScale (le_refl _) (by norm_num [simulatedConfig])
  · exact simRun_bounds simpleConfig (by norm_num [simpleConfig])
      (by norm_num [simpleConfig]) (by norm_num [simpleConfig])
      (by norm_num [simpleConfig]) (by norm_num [simpleConfig])
      steps simpleConfig.baseScale (le_refl _) (by norm_num [simpleConfig])

/-- C6: in the simulated variant (grow +8% every 2000 ms, shrink -3% every
8000 ms), one 8000 ms window applies four grow ticks and one shrink tick; for
any start `s` at least the base with `s * 1.08^4` still at most the cap, the
window strictly increases the scale (1.08^4 * 0.97 > 1). -/
theorem simWindow_strict_increase (s : ℚ)
    (hb : simulatedConfig.baseScale ≤ s)
    (hc : s * simulatedConfig.growFactor ^ 4 ≤ simulatedConfig.maxScale) :
    s < shrinkStep simulatedConfig (growStep simulatedConfig
      (growStep simulatedConfig (growStep simulatedConfig
        (growStep simulatedConfig s)))) := by
  have hb' : (0.6 : ℚ) ≤ s := by simpa [simulatedConfig] using hb
  have hc' : s * (1.08 : ℚ) ^ 4 ≤ 4 := by simpa [simulatedConfig] using hc
  have hs : (0 : ℚ) < s := lt_of_lt_of_le (by norm_num) hb'
  have e1 : growStep simulatedConfig s = s * 1.08 := by
    have h : s * (1.08 : ℚ) ≤ 4 := by nlinarith
    simp only [growStep, simulatedConfig]
    exact min_eq_left h
  have e2 : growStep simulatedConfig (s * 1.08) = s * 1.08 ^ 2 := by
    have h : s * (1.08 : ℚ) * 1.08 ≤ 4 := by nlinarith
    simp only [growStep, simulatedConfig]
    rw [min_eq_left h]
    ring
  have e3 : growStep simulatedConfig (s * 1.08 ^ 2) = s * 1.08 ^ 3 := by
    have h : s * (1.08 : ℚ) ^ 2 * 1.08 ≤ 4 := by nlinarith
    simp only [growStep, simulatedConfig]
    rw [min_eq_left h]
    ring
  have e4 : growStep simulatedConfig (s * 1.08 ^ 3) = s * 1.08 ^ 4 := by
    have h : s * (1.08 : ℚ) ^ 3 * 1.08 ≤ 4 := by nlinarith
    simp only [growStep, simulatedConfig]
    rw [min_eq_left h]
    ring
  rw [e1, e2, e3, e4]
  have hlt : s < s * (1.08 : ℚ) ^ 4 * 0.97 := by nlinarith
  simp only [shrinkStep, simulatedConfig]
  exact lt_max_iff.mpr (Or.inr hlt)

/-- Witness for `simWindow_strict_increase` at the base scale `s = 0.6`. -/
theorem simWindow_strict_increase_witness :
    simulatedConfig.baseScale ≤ (0.6 : ℚ) ∧
    (0.6 : ℚ) * simulatedConfig.growFactor ^ 4 ≤ simulatedConfig.maxScale ∧
    (0.6 : ℚ) < shrinkStep simulatedConfig (growStep simulatedConfig
      (growStep simulatedConfig (growStep simulatedConfig
        (growStep simulatedConfig 0.6)))) :=
  ⟨by norm_num [simulatedConfig], by norm_num [simulatedConfig],
    simWindow_strict_increase 0.6 (by norm_num [simulatedConfig])
      (by norm_num [simulatedConfig])⟩

/-- While the component is mounted, the transaction loop never takes the
early-return exit (that exit is guarded by `if (!isMounted) return`). -/
theorem processLoop_mounted_no_return (fetchTx : String → Except String TxData)
    (target : String) (threshold : ℚ) (now : ℕ) :
    ∀ (l : List SigEntry) (st : PollState),
      (processLoop fetchTx target threshold now true st l).2 ≠ LoopExit.returned := by
  intro l
  induction l with
  | nil => intro st h; simp [processLoop] at h
  | cons s rest ih =>
    intro st
    cases hft : fetchTx s.signature with
    | error e => simp [processLoop, hft]
    | ok tx =>
      by_cases hb : txEmitsFeed target threshold tx
      · simpa [processLoop, hft, hb] using ih _
      · simpa [processLoop, hft, hb] using ih _

/-- Regardless of what the two remote calls return, a poll iteration schedules
the next one after exactly 5000 ms when the component is mounted, and not at
all when it is unmounted: fixed delay, no backoff. -/
theorem pollIter_delay (fetchSigs : Option String → Except String (List SigEntry))
    (fetchTx : String → Except String TxData)
    (target : String) (threshold : ℚ) (now : ℕ) (isDev mounted : Bool)
    (st : PollState) :
    (pollIter fetchSigs fetchTx target threshold now isDev mounted st).delayMs =
      reschedule mounted := by
  unfold pollIter
  split
  · rfl
  · rfl
  · rename_i s0 rest hf
    split
    · rfl
    · rfl
    · rename_i st2 heq
      cases mounted with
      | false => rfl
      | true =>
        have hnr := processLoop_mounted_no_return fetchTx target threshold now
          ((s0 :: rest).reverse) { st with cursor := some s0.signature }
        rw [heq] at hnr
        exact absurd rfl hnr

/-- C7: a throwing remote call is caught: when the signature fetch rejects the
whole iteration leaves the state untouched; when a transaction fetch rejects
the loop stops with no mutation from the failing step; either way the error is
logged only in dev mode and the loop reschedules after the fixed 5000 ms delay
while mounted — no backoff, regardless of success or failure. -/
theorem pollIter_error_swallowed
    (fetchTx : String → Except String TxData) (target : String) (threshold : ℚ)
    (now : ℕ) (isDev mounted : Bool) (st : PollState) (e : String)
    (s : SigEntry) (rest : List SigEntry)
    (ht : fetchTx s.signature = Except.error e) :
    pollIter (fun _ => Except.error e) fetchTx target threshold now isDev mounted st =
      { state := st, delayMs := reschedule mounted, logs := devLog isDev e } ∧
    processLoop fetchTx target threshold now mounted st (s :: rest) =
      (st, LoopExit.errored e) ∧
    (∀ (fs : Option String → Except String (List SigEntry))
        (ft : String → Except String TxData),
      (pollIter fs ft target threshold now isDev mounted st).delayMs =
        reschedule mounted) := by
  refine ⟨rfl, ?_, fun fs ft => pollIter_delay fs ft target threshold now isDev mounted st⟩
  simp [processLoop, ht]

/-- Witness for `pollIter_error_swallowed`: a transport that always rejects
with "boom", in dev mode, mounted. -/
theorem pollIter_error_swallowed_witness :
    ((fun _ : String => (Except.error "boom" : Except String TxData))
        (SigEntry.mk "s1").signature = Except.error "boom") ∧
    (pollIter (fun _ => Except.error "boom") (fun _ => Except.error "boom")
        "T" FEED_THRESHOLD_DEFAULT 0 true true initState =
      { state := initState, delayMs := reschedule true, logs := devLog true "boom" } ∧
    processLoop (fun _ => Except.error "boom") "T" FEED_THRESHOLD_DEFAULT 0 true
        initState [SigEntry.mk "s1"] = (initState, LoopExit.errored "boom") ∧
    (∀ (fs : Option String → Except String (List SigEntry))
        (ft : String → Except String TxData),
      (pollIter fs ft "T" FEED_THRESHOLD_DEFAULT 0 true true initState).delayMs =
        reschedule true)) :=
  ⟨rfl, pollIter_error_swallowed (fun _ => Except.error "boom") "T"
    FEED_THRESHOLD_DEFAULT 0 true true initState "boom" (SigEntry.mk "s1") [] rfl⟩

/-- C8: with a placeholder or empty target address, or a missing connection,
the polling effect is a no-op — zero remote calls, state untouched — and a
connection-construction failure is only stored as a non-fatal message. -/
theorem feedPoller_guard_noop (conn : Option Connection) (target : String)
    (e : String) (pollFn : PollState → PollState × ℕ) (st : PollState)
    (h : target = "REPLACE_WITH_TARGET_ADDRESS" ∨ target = "" ∨ conn = none) :
    pollerStarts conn target = false ∧
    feedPollerEffect conn target pollFn st = (st, 0) ∧
    initConnection (Except.error e) = (none, some e) := by
  have hps : pollerStarts conn target = false := by
    rcases h with h | h | h
    · simp [pollerStarts, h]
    · simp [pollerStarts, h]
    · simp [pollerStarts, h]
  exact ⟨hps, by simp [feedPollerEffect, hps], rfl⟩

/-- Witness for `feedPoller_guard_noop`: placeholder address with a live
connection and a poll function that would otherwise mutate the state. -/
theorem feedPoller_guard_noop_witness :
    (("REPLACE_WITH_TARGET_ADDRESS" : String) = "REPLACE_WITH_TARGET_ADDRESS" ∨
      ("REPLACE_WITH_TARGET_ADDRESS" : String) = "" ∨
      (some (Connection.mk "url") : Option Connection) = none) ∧
    (pollerStarts (some (Connection.mk "url")) "REPLACE_WITH_TARGET_ADDRESS" = false ∧
    feedPollerEffect (some (Connection.mk "url")) "REPLACE_WITH_TARGET_ADDRESS"
      (fun st => ({ st with feeds := st.feeds + 9 }, 3)) initState = (initState, 0) ∧
    initConnection (Except.error "rpc down") = (none, some "rpc down")) :=
  ⟨Or.inl rfl, feedPoller_guard_noop (some (Connection.mk "url"))
    "REPLACE_WITH_TARGET_ADDRESS" "rpc down"
    (fun st => ({ st with feeds := st.feeds + 9 }, 3)) initState (Or.inl rfl)⟩

/-- C9: the feed counter starts at 0, every single operation that touches it
leaves it unchanged or adds exactly 1, hence it is monotonically
non-decreasing over any session. -/
theorem feeds_monotone (target : String) (threshold : ℚ) (now : ℕ) :
    initState.feeds = 0 ∧
    (∀ (st : PollState) (op : FeedOp),
      (applyFeedOp target threshold now st op).feeds = st.feeds ∨
      (applyFeedOp target threshold now st op).feeds = st.feeds + 1) ∧
    (∀ (ops : List FeedOp) (st : PollState),
      st.feeds ≤ (ops.foldl (applyFeedOp target threshold now) st).feeds) := by
  have hstep : ∀ (st : PollState) (op : FeedOp),
      (applyFeedOp target threshold now st op).feeds = st.feeds ∨
      (applyFeedOp target threshold now st op).feeds = st.feeds + 1 := by
    intro st op
    cases op with
    | poll tx =>
      by_cases hb : txEmitsFeed target threshold tx
      · right; simp [applyFeedOp, processTx, hb]
      · left; simp [applyFeedOp, processTx, hb]
    | simulate => right; rfl
  refine ⟨rfl, hstep, ?_⟩
  intro ops
  induction ops with
  | nil => intro st; exact le_refl _
  | cons op rest ih =>
    intro st
    have h1 : st.feeds ≤ (applyFeedOp target threshold now st op).feeds := by
      rcases hstep st op with h | h
      · exact le_of_eq h.symm
      · rw [h]; exact Nat.le_succ _
    exact le_trans h1 (ih _)

/-- C1 (refuted — the code contradicts it): the code passes
`{ before: cursor }` to `getSignaturesForAddress`, which returns signatures
positioned before (older than) the cursor, not newer ones.  On a fixed
two-transaction ledger (newest first `"s1"`, then `"s2"`, both above the
threshold) the first round counts both transactions and sets the cursor to
`"s1"`; the second round — with no new transaction on the ledger — fetches
exactly the older signature `"s2"`, re-processes it and increments the feed
counter again (2 to 3), emitting a feed event for a transaction at/before the
cursor and double-counting `"s2"`. -/
theorem pollRound_recounts_before_cursor :
    pollRound twoTxLedger "T" FEED_THRESHOLD_DEFAULT 0 initState =
      { cursor := some "s1", feeds := 2, lastFeedAt := some 0 } ∧
    ledgerSigs twoTxLedger (some "s1") 20 = [SigEntry.mk "s2"] ∧
    pollRound twoTxLedger "T" FEED_THRESHOLD_DEFAULT 0
        { cursor := some "s1", feeds := 2, lastFeedAt := some 0 } =
      { cursor := some "s2", feeds := 3, lastFeedAt := some 0 } := by
  refine ⟨?_, ?_, ?_⟩
  · norm_num [pollRound, pollIter, ledgerSigs, ledgerFetchTx, sigsBefore,
      twoTxLedger, feedTx, processLoop, txEmitsFeed, initState, lamportsToSol,
      LAMPORTS_PER_SOL, FEED_THRESHOLD_DEFAULT, reschedule, devLog]
  · norm_num [ledgerSigs, sigsBefore, twoTxLedger]
  · norm_num [pollRound, pollIter, ledgerSigs, ledgerFetchTx, sigsBefore,
      twoTxLedger, feedTx, processLoop, txEmitsFeed, initState, lamportsToSol,
      LAMPORTS_PER_SOL, FEED_THRESHOLD_DEFAULT, reschedule, devLog]

end SolPill
